import Mathlib

/-!
Verification of the investment-club backend (`src/app.py`) against its
natural-language specification.

The Python code is shallowly embedded: Firestore documents become Lean
structures, Python dicts keyed by strings become association lists with
`strLookup` / `strSet`, monetary quantities become `Rat`, timestamps become
`Int` seconds, and each HTTP handler becomes a pure function from its inputs
and the relevant stored state to a status code and the state after the
request.
-/

namespace InvestClub

/-- A holding/transaction document in the `holdings` collection
(fields as written by `add_transaction` in `app.py`). -/
structure Tx where
  symbol : String
  isReal : Bool
  transactionType : String
  quantity : Rat
  dollarValue : Rat
  date : String
  longName : Option String
  sector : Option String
  customSection : Option String
deriving Repr, DecidableEq

/-- An aggregated position, as built by `aggregate_portfolio` in `app.py`. -/
structure Position where
  symbol : String
  longName : Option String
  sector : Option String
  customSection : Option String
  quantity : Rat
  totalCost : Rat
deriving Repr, DecidableEq

/-- Lookup in a string-keyed insertion-ordered map (a Python dict /
a Firestore document set keyed by id). -/
def strLookup {α : Type} : List (String × α) → String → Option α
  | [], _ => none
  | (k, v) :: rest, s => if k = s then some v else strLookup rest s

/-- Update/insert in a string-keyed insertion-ordered map: an existing key is
updated in place, a new key is appended (Python dict assignment /
Firestore `set`). -/
def strSet {α : Type} : List (String × α) → String → α → List (String × α)
  | [], s, v => [(s, v)]
  | (k, w) :: rest, s, v =>
      if k = s then (k, v) :: rest else (k, w) :: strSet rest s v

/-- The body of `aggregate_portfolio`'s loop acting on one position
(`app.py` lines 160-174): a buy adds quantity and dollar value; anything else
is treated as a sell and, only when the running quantity is positive, removes
the sold quantity at average cost; in every case `customSection` is
overwritten from the transaction. -/
def applyTx (pos : Position) (tx : Tx) : Position :=
  let pos1 :=
    if tx.transactionType = "buy" then
      { pos with quantity := pos.quantity + tx.quantity,
                 totalCost := pos.totalCost + tx.dollarValue }
    else
      if 0 < pos.quantity then
        let avg_cost := pos.totalCost / pos.quantity
        let cost_of_sold := avg_cost * tx.quantity
        { pos with quantity := pos.quantity - tx.quantity,
                   totalCost := pos.totalCost - cost_of_sold }
      else pos
  { pos1 with customSection := tx.customSection }

/-- One iteration of `aggregate_portfolio`'s loop (`app.py` lines 143-174):
non-real transactions are skipped; a sell with no existing entry is skipped;
otherwise the (possibly freshly created) entry is updated by `applyTx`. -/
def aggregateStep (m : List (String × Position)) (tx : Tx) :
    List (String × Position) :=
  if tx.isReal = false then m
  else
    match strLookup m tx.symbol with
    | none =>
        if tx.transactionType = "sell" then m
        else
          strSet m tx.symbol
            (applyTx
              { symbol := tx.symbol, longName := tx.longName,
                sector := tx.sector, customSection := tx.customSection,
                quantity := 0, totalCost := 0 } tx)
    | some pos => strSet m tx.symbol (applyTx pos tx)

/-- Lexicographic strict order on character lists. -/
def charListLt : List Char → List Char → Bool
  | _, [] => false
  | [], _ :: _ => true
  | c :: cs, d :: ds => c < d || (c == d && charListLt cs ds)

/-- Python's `<` on strings: lexicographic comparison of the characters. -/
def dateLt (a b : String) : Bool := charListLt a.data b.data

/-- Python's `str.upper()` on the character list. -/
def strUpper (s : String) : String := ⟨s.data.map Char.toUpper⟩

/-- Stable insertion of a transaction into a date-sorted list: the inserted
transaction goes before every entry whose date is not strictly smaller
(matching the stability of Python's `sorted` with key `date`). -/
def insertByDate (tx : Tx) : List Tx → List Tx
  | [] => [tx]
  | t :: ts => if dateLt t.date tx.date then t :: insertByDate tx ts else tx :: t :: ts

/-- `sorted(all_transactions, key=lambda tx: tx.get('date', ''))`
(`app.py` line 141), as a stable insertion sort on the date string. -/
def sortByDate : List Tx → List Tx
  | [] => []
  | tx :: ts => insertByDate tx (sortByDate ts)

/-- The position map built by `aggregate_portfolio` before the final filter:
the fold of `aggregateStep` over the date-sorted transactions. -/
def rawPortfolio (txs : List Tx) : List (String × Position) :=
  (sortByDate txs).foldl aggregateStep []

/-- `aggregate_portfolio` (`app.py` lines 137-176): aggregate the date-sorted
real transactions and keep the positions whose quantity exceeds the
epsilon `0.00001`. -/
def aggregate_portfolio (all_transactions : List Tx) : List Position :=
  ((rawPortfolio all_transactions).map Prod.snd).filter
    (fun p => decide ((1 : Rat)/100000 < p.quantity))

/-- The buy and sell quantity totals over the real transactions of a symbol,
as summed by `add_transaction`'s sell check (`app.py` lines 631-640): the
Firestore query keeps the documents with this symbol and `isReal == True`,
the loop adds a `buy`'s quantity to `buys` and any other type's to `sells`. -/
def buySellTotals (holdings : List Tx) (symbol : String) : Rat × Rat :=
  holdings.foldl
    (fun acc tx =>
      if tx.symbol = symbol ∧ tx.isReal = true then
        if tx.transactionType = "buy" then (acc.1 + tx.quantity, acc.2)
        else (acc.1, acc.2 + tx.quantity)
      else acc)
    (0, 0)

/-- `current_quantity = buys - sells` (`app.py` line 640). -/
def currentQuantity (holdings : List Tx) (symbol : String) : Rat :=
  (buySellTotals holdings symbol).1 - (buySellTotals holdings symbol).2

/-- Outcome of `add_transaction`: an error status, or the stored document. -/
inductive AddTxResult where
  | rejected : Nat → AddTxResult
  | created : Tx → AddTxResult
deriving Repr, DecidableEq

/-- `add_transaction` (`app.py` lines 621-669): a real transaction from a
non-admin is rejected with 403; a sell whose quantity exceeds the current
real holdings of the symbol is rejected with 400; otherwise the document is
stored with the symbol upper-cased.  The sector/longName enrichment from the
market-data service is external input and is not modelled; it does not
affect the validation outcome. -/
def add_transaction (role : String) (req : Tx) (holdings : List Tx) :
    AddTxResult :=
  if req.isReal = true ∧ role ≠ "admin" then .rejected 403
  else if req.transactionType = "sell" ∧
      currentQuantity holdings req.symbol < req.quantity then .rejected 400
  else .created { req with symbol := strUpper req.symbol }

/-- A presentation document.  `voting_ends_at` is the Firestore key written
by `add_presentation` (`app.py` line 791) and read by `vote_on_presentation`
(line 821); `votingEndsAt` is the distinct key read by `get_presentations`
(line 740).  Both are carried so the key mismatch is visible in the model.
`votes` is the `votes` subcollection, keyed by user id. -/
structure PresDoc where
  title : String
  url : String
  ticker : String
  action : String
  created_at : Int
  voting_ends_at : Option Int
  votingEndsAt : Option Int
  votes_for : Int
  votes_against : Int
  votes : List (String × String)
deriving Repr, DecidableEq

/-- `add_presentation` (`app.py` lines 773-801): guests are rejected with
403, missing fields with 400; otherwise a document is stored with
`created_at := now`, `voting_ends_at := now + 48 hours` and zero vote
counts.  Times are in seconds. -/
def add_presentation (role : String)
    (fields : Option (String × String × String × String)) (now : Int) :
    Nat × Option PresDoc :=
  if role = "guest" then (403, none)
  else
    match fields with
    | none => (400, none)
    | some (title, url, ticker, act) =>
        (201, some
          { title := title, url := url, ticker := strUpper ticker,
            action := act, created_at := now,
            voting_ends_at := some (now + 48 * 3600),
            votingEndsAt := none, votes_for := 0, votes_against := 0,
            votes := [] })

/-- `vote_on_presentation` (`app.py` lines 803-858) as a function from the
caller, the stored presentation and the current time to the HTTP status and
the presentation after the request.  Guests get 403; a missing presentation
404; a missing or passed `voting_ends_at` 403; an existing vote by this user
409; an invalid vote type 400; otherwise the vote document is stored and the
matching counter incremented. -/
def vote_on_presentation (role userId voteType : String)
    (pres : Option PresDoc) (now : Int) : Nat × Option PresDoc :=
  if role = "guest" then (403, pres)
  else
    match pres with
    | none => (404, none)
    | some p =>
        match p.voting_ends_at with
        | none => (403, some p)
        | some ends =>
            if ends < now then (403, some p)
            else if (strLookup p.votes userId).isSome then (409, some p)
            else if voteType ≠ "for" ∧ voteType ≠ "against" then (400, some p)
            else if voteType = "for" then
              (200, some { p with
                votes := strSet p.votes userId voteType,
                votes_for := p.votes_for + 1 })
            else
              (200, some { p with
                votes := strSet p.votes userId voteType,
                votes_against := p.votes_against + 1 })

/-- One presentation as serialized by `get_presentations` (`app.py` lines
737-765): `votes_for`/`votes_against` are `none` when the field was removed
from the response. -/
structure PresView where
  isVotingOpen : Bool
  hasVoted : Bool
  voteDirection : Option String
  votes_for : Option Int
  votes_against : Option Int
deriving Repr, DecidableEq

/-- The per-presentation processing of `get_presentations` (`app.py` lines
737-765): `isVotingOpen` is computed from the serialized key `votingEndsAt`
(line 740), and for a non-admin caller with `isVotingOpen` true the two
tally fields are removed (lines 761-763). -/
def processPresentation (role : String) (userId : Option String)
    (p : PresDoc) (now : Int) : PresView :=
  let isOpen : Bool :=
    match p.votingEndsAt with
    | some e => decide (now < e)
    | none => false
  let voteOf : Option String :=
    match userId with
    | none => none
    | some u => strLookup p.votes u
  let hide : Bool := decide (role ≠ "admin") && isOpen
  { isVotingOpen := isOpen,
    hasVoted := voteOf.isSome,
    voteDirection := voteOf,
    votes_for := if hide = true then none else some p.votes_for,
    votes_against := if hide = true then none else some p.votes_against }

/-- A user document: username and role. -/
structure UserRec where
  username : String
  role : String
deriving Repr, DecidableEq

/-- `update_user_role` (`app.py` lines 257-277): non-admin callers get 403,
a missing target 404, an invalid or missing role 400, an admin demoting
their own account 400; otherwise the target's role is updated. -/
def update_user_role (callerId callerRole userId : String)
    (users : List (String × UserRec)) (newRole : Option String) :
    Nat × List (String × UserRec) :=
  if callerRole ≠ "admin" then (403, users)
  else
    match strLookup users userId with
    | none => (404, users)
    | some target =>
        match newRole with
        | none => (400, users)
        | some r =>
            if ¬ (r = "guest" ∨ r = "member" ∨ r = "admin") then (400, users)
            else if userId = callerId ∧ r ≠ "admin" then (400, users)
            else (200, strSet users userId { target with role := r })

/-- The shared storage touched by the vote-casting path for one fixed
(user, presentation) pair: the aggregate counter and whether this user's
vote document exists. -/
structure VoteState where
  votes_for : Int
  voteDocExists : Bool
deriving Repr, DecidableEq

/-- One in-flight vote request: its program counter (0 = about to run the
pre-transaction duplicate check of `app.py` line 826; 1 = check passed,
about to run the Firestore transaction of lines 833-854; 2 = finished) and
its response when finished. -/
structure ReqState where
  pc : Nat
  res : Option Nat
deriving Repr, DecidableEq

/-- One step of the vote handler.  Step 0 is the duplicate-vote check, which
the source performs before opening the transaction; step 1 is the Firestore
transaction, which atomically stores the vote document and increments the
counter.  The transactional function never re-checks for an existing vote,
so it is a single unconditional step. -/
def voteHandlerStep (s : VoteState) (r : ReqState) : VoteState × ReqState :=
  match r.pc with
  | 0 =>
      if s.voteDocExists then (s, { pc := 2, res := some 409 })
      else (s, { pc := 1, res := none })
  | 1 =>
      ({ votes_for := s.votes_for + 1, voteDocExists := true },
       { pc := 2, res := some 200 })
  | _ => (s, r)

/-- Two concurrent vote requests by the same user on the same presentation,
with the storage they share. -/
structure ConcState where
  shared : VoteState
  reqA : ReqState
  reqB : ReqState
deriving Repr, DecidableEq

/-- Run one step of request A (`true`) or request B (`false`). -/
def schedStep (c : ConcState) (pickA : Bool) : ConcState :=
  if pickA then
    let sr := voteHandlerStep c.shared c.reqA
    { c with shared := sr.1, reqA := sr.2 }
  else
    let sr := voteHandlerStep c.shared c.reqB
    { c with shared := sr.1, reqB := sr.2 }

/-- Run an interleaving of the two requests. -/
def runSched (sched : List Bool) (c : ConcState) : ConcState :=
  sched.foldl schedStep c

/-- Both requests about to start, no vote recorded, counter zero. -/
def initConc : ConcState :=
  { shared := { votes_for := 0, voteDocExists := false },
    reqA := { pc := 0, res := none },
    reqB := { pc := 0, res := none } }

/-- A real buy of the symbol `ABC`, for concrete examples. -/
def exBuy (d : String) (q dv : Rat) : Tx :=
  { symbol := "ABC", isReal := true, transactionType := "buy",
    quantity := q, dollarValue := dv, date := d,
    longName := none, sector := none, customSection := none }

/-- A real sell of the symbol `ABC`, for concrete examples. -/
def exSell (d : String) (q : Rat) : Tx :=
  { exBuy d q 0 with transactionType := "sell" }

/-- The spec's worked example: buys of 10, 20 and 10 shares at $10, $15 and
$20 per share, so dollar values $100, $300 and $200. -/
def c1Buys : List Tx :=
  [exBuy "2024-01-01" 10 100, exBuy "2024-01-02" 20 300,
   exBuy "2024-01-03" 10 200]

/-- The spec's worked example continued with a sell of 15 shares. -/
def c1All : List Tx := c1Buys ++ [exSell "2024-01-04" 15]

theorem strLookup_strSet_self {α : Type} (m : List (String × α)) (s : String)
    (v : α) : strLookup (strSet m s v) s = some v := by
  induction m with
  | nil => simp [strSet, strLookup]
  | cons kv rest ih =>
      obtain ⟨k, w⟩ := kv
      by_cases h : k = s
      · simp [strSet, strLookup, h]
      · simp [strSet, strLookup, h, ih]

theorem strLookup_eq_none_iff {α : Type} (m : List (String × α)) (s : String) :
    strLookup m s = none ↔ ∀ kv ∈ m, kv.1 ≠ s := by
  induction m with
  | nil => simp [strLookup]
  | cons kv rest ih =>
      obtain ⟨k, w⟩ := kv
      by_cases h : k = s
      · simp [strLookup, h]
      · simp [strLookup, h, ih]

theorem strSet_append_of_none {α : Type} (m : List (String × α)) (s : String)
    (v : α) (h : strLookup m s = none) : strSet m s v = m ++ [(s, v)] := by
  induction m with
  | nil => simp [strSet]
  | cons kv rest ih =>
      obtain ⟨k, w⟩ := kv
      rw [strLookup] at h
      by_cases hk : k = s
      · rw [if_pos hk] at h; cases h
      · rw [if_neg hk] at h
        simp [strSet, hk, ih h]

/-- C1 (amended): `aggregate_portfolio` implements weighted-average-cost
aggregation: a buy adds the transaction's quantity to the running quantity
and its dollar value to the running total cost, and a sell (with a positive
running quantity) subtracts the sold quantity and average cost times sold
quantity; the spec's example of buys of 10, 20, 10 shares at $10, $15, $20
yields average cost $15, and a subsequent sell of 15 shares leaves quantity
25 and total cost $375, a reduction by 15 × $15 = $225. -/
theorem C1_weighted_average_cost :
    (∀ (pos : Position) (tx : Tx), tx.transactionType = "buy" →
        (applyTx pos tx).quantity = pos.quantity + tx.quantity ∧
        (applyTx pos tx).totalCost = pos.totalCost + tx.dollarValue) ∧
    (∀ (pos : Position) (tx : Tx), tx.transactionType = "sell" →
        0 < pos.quantity →
        (applyTx pos tx).quantity = pos.quantity - tx.quantity ∧
        (applyTx pos tx).totalCost =
          pos.totalCost - pos.totalCost / pos.quantity * tx.quantity) ∧
    (aggregate_portfolio c1Buys).map (fun p => p.totalCost / p.quantity)
      = [15] ∧
    (aggregate_portfolio c1All).map (fun p => (p.quantity, p.totalCost))
      = [(25, 375)] := by
  refine ⟨?_, ?_, ?_, ?_⟩
  · intro pos tx h
    simp [applyTx, h]
  · intro pos tx h hq
    rw [applyTx]
    rw [if_neg (by rw [h]; decide), if_pos hq]
    exact ⟨rfl, rfl⟩
  · with_unfolding_all decide
  · with_unfolding_all decide

/-- C1 counterexample: on the spec's example input the code yields average
cost $15, not the claimed $13.75 (= 55/4), and the sell of 15 shares reduces
the total cost from $600 to $375, a reduction of $225, not the claimed
$206.25 (= 825/4). -/
theorem C1_spec_example_refuted :
    (aggregate_portfolio c1Buys).map (fun p => p.totalCost / p.quantity)
      ≠ [(55 : Rat)/4] ∧
    (aggregate_portfolio c1All).map (fun p => (p.quantity, p.totalCost))
      = [(25, 375)] ∧
    (600 : Rat) - 375 ≠ 825/4 := by
  refine ⟨by with_unfolding_all decide, by with_unfolding_all decide,
    by norm_num⟩

/-- C2: every position in the output of `aggregate_portfolio` has positive
quantity, and `add_transaction` rejects with 400 a sell whose quantity
exceeds the current real holdings of the symbol (for a request that passes
the preceding admin gate on real transactions). -/
theorem C2_no_negative_quantity_and_oversell_rejected :
    (∀ (txs : List Tx) (p : Position),
        p ∈ aggregate_portfolio txs → 0 < p.quantity) ∧
    (∀ (role : String) (req : Tx) (holdings : List Tx),
        req.transactionType = "sell" →
        (req.isReal = true → role = "admin") →
        currentQuantity holdings req.symbol < req.quantity →
        add_transaction role req holdings = AddTxResult.rejected 400) := by
  constructor
  · intro txs p hp
    rw [aggregate_portfolio, List.mem_filter] at hp
    have h := of_decide_eq_true hp.2
    calc (0 : Rat) < 1/100000 := by norm_num
      _ < p.quantity := h
  · intro role req holdings h1 h2 h3
    rw [add_transaction, if_neg, if_pos ⟨h1, h3⟩]
    rintro ⟨hr, hn⟩
    exact hn (h2 hr)

/-- C2 witness: a sell of 5 `ABC` shares by an admin against empty holdings
is rejected with 400, and a concrete aggregated position has positive
quantity. -/
theorem C2_witness_concrete :
    add_transaction "admin" (exSell "2024-01-05" 5) []
      = AddTxResult.rejected 400 :=
  C2_no_negative_quantity_and_oversell_rejected.2 "admin"
    (exSell "2024-01-05" 5) [] rfl (fun _ => rfl)
    (by with_unfolding_all decide)

theorem strLookup_none_not_mem_keys {α : Type} (m : List (String × α))
    (s : String) (h : strLookup m s = none) : s ∉ m.map Prod.fst := by
  rw [strLookup_eq_none_iff] at h
  intro hmem
  obtain ⟨kv, hkv, rfl⟩ := List.mem_map.mp hmem
  exact h kv hkv rfl

/-- C3: the vote store is keyed by user id, so at most one vote per user per
presentation is ever recorded (distinctness of the keys is preserved by
every request), and a second vote attempt by a user who has already voted
returns 409 with the presentation document, including its vote counts,
unchanged. -/
theorem C3_duplicate_vote_conflict :
    (∀ (role userId voteType : String) (p : PresDoc) (e now : Int),
        role ≠ "guest" → p.voting_ends_at = some e → ¬ e < now →
        (strLookup p.votes userId).isSome = true →
        vote_on_presentation role userId voteType (some p) now
          = (409, some p)) ∧
    (∀ (role userId voteType : String) (p p2 : PresDoc) (now : Int),
        (p.votes.map Prod.fst).Nodup →
        (vote_on_presentation role userId voteType (some p) now).2 = some p2 →
        (p2.votes.map Prod.fst).Nodup) := by
  constructor
  · intro role userId voteType p e now h1 h2 h3 h4
    simp [vote_on_presentation, h1, h2, h3, h4]
  · intro role userId voteType p p2 now hnd hres
    rw [vote_on_presentation] at hres
    split at hres
    · simp at hres; subst hres; exact hnd
    · rename_i p1
      split at hres
      · simp at hres; subst hres; exact hnd
      · split at hres
        · simp at hres; subst hres; exact hnd
        · split at hres
          · simp at hres; subst hres; exact hnd
          · rename_i hvoted
            have hnone : strLookup p.votes userId = none := by
              cases hopt : strLookup p.votes userId
              · rfl
              · exact absurd (by rw [hopt]; rfl) hvoted
            split at hres
            · simp at hres; subst hres; exact hnd
            · split at hres <;>
              · simp at hres
                subst hres
                show ((strSet p.votes userId voteType).map Prod.fst).Nodup
                rw [strSet_append_of_none _ _ _ hnone, List.map_append]
                simp only [List.map_cons, List.map_nil]
                refine List.Nodup.append hnd (List.nodup_singleton _) ?_
                rw [List.disjoint_singleton]
                exact strLookup_none_not_mem_keys _ _ hnone

/-- The presentation used in the C3 witness: voting open until 172800, one
recorded vote by user `u1`. -/
def c3Pres : PresDoc :=
  { title := "Pitch", url := "u", ticker := "ABC", action := "buy",
    created_at := 0, voting_ends_at := some 172800, votingEndsAt := none,
    votes_for := 1, votes_against := 0, votes := [("u1", "for")] }

/-- C3 witness: a second `for` vote by user `u1` on an open presentation
with an existing `u1` vote returns 409 and leaves the document unchanged. -/
theorem C3_witness_concrete :
    vote_on_presentation "member" "u1" "for" (some c3Pres) 10
      = (409, some c3Pres) :=
  C3_duplicate_vote_conflict.1 "member" "u1" "for" c3Pres 172800 10
    (by decide) rfl (by decide) (by decide)

/-- C4: whatever the caller's role, a vote on a presentation whose
`voting_ends_at` deadline has passed returns 403 and leaves the
presentation document, including its vote counts, unchanged. -/
theorem C4_deadline_vote_forbidden :
    ∀ (role userId voteType : String) (p : PresDoc) (e now : Int),
      p.voting_ends_at = some e → e < now →
      vote_on_presentation role userId voteType (some p) now
        = (403, some p) := by
  intro role userId voteType p e now h1 h2
  by_cases hr : role = "guest"
  · simp [vote_on_presentation, hr]
  · simp [vote_on_presentation, hr, h1, h2]

/-- The presentation used in the C4 witness: deadline 172800, two votes
recorded in the counters. -/
def c4Pres : PresDoc :=
  { title := "Pitch", url := "u", ticker := "ABC", action := "buy",
    created_at := 0, voting_ends_at := some 172800, votingEndsAt := none,
    votes_for := 2, votes_against := 1, votes := [] }

/-- C4 witness: one second after the deadline even an admin's vote returns
403 with the document unchanged. -/
theorem C4_witness_concrete :
    vote_on_presentation "admin" "u1" "for" (some c4Pres) 172801
      = (403, some c4Pres) :=
  C4_deadline_vote_forbidden "admin" "u1" "for" c4Pres 172800 172801 rfl
    (by decide)

/-- C5: every presentation successfully created by `add_presentation` has
`created_at` equal to the request time and `voting_ends_at` exactly
48 hours (48 × 3600 seconds) later. -/
theorem C5_voting_deadline_48h :
    ∀ (role : String) (fields : Option (String × String × String × String))
      (now : Int) (c : Nat) (p : PresDoc),
      add_presentation role fields now = (c, some p) →
      p.created_at = now ∧ p.voting_ends_at = some (now + 48 * 3600) := by
  intro role fields now c p h
  rw [add_presentation.eq_def] at h
  split at h
  · simp at h
  · split at h
    · simp at h
    · simp at h
      obtain ⟨hc, hp⟩ := h
      subst hp
      exact ⟨rfl, rfl⟩

/-- The presentation created in the C5 witness. -/
def c5Pres : PresDoc :=
  { title := "Pitch", url := "u", ticker := "ABC", action := "buy",
    created_at := 5, voting_ends_at := some (5 + 48 * 3600),
    votingEndsAt := none, votes_for := 0, votes_against := 0, votes := [] }

/-- C5 witness: a member's presentation created at time 5 has deadline
5 + 48 × 3600. -/
theorem C5_witness_concrete :
    c5Pres.created_at = 5 ∧ c5Pres.voting_ends_at = some (5 + 48 * 3600) :=
  C5_voting_deadline_48h "member" (some ("Pitch", "u", "ABC", "buy")) 5 201
    c5Pres rfl

/-- C6: a position appears in the output of `aggregate_portfolio` iff it is
in the aggregated position map and its quantity exceeds the epsilon
`0.00001` (= 1/100000). -/
theorem C6_open_position_iff_above_epsilon (txs : List Tx) (p : Position) :
    p ∈ aggregate_portfolio txs ↔
      p ∈ (rawPortfolio txs).map Prod.snd ∧
        (1 : Rat)/100000 < p.quantity := by
  simp [aggregate_portfolio, List.mem_filter]

/-- C7: `update_user_role` returns 403 to every non-admin caller, and an
admin's request to change their own role to anything other than `admin`
never succeeds and leaves the user table unchanged. -/
theorem C7_role_update_access_control :
    (∀ (callerId callerRole userId : String)
        (users : List (String × UserRec)) (newRole : Option String),
        callerRole ≠ "admin" →
        update_user_role callerId callerRole userId users newRole
          = (403, users)) ∧
    (∀ (callerId userId : String) (users : List (String × UserRec))
        (newRole : Option String),
        userId = callerId → newRole ≠ some "admin" →
        ∃ c, update_user_role callerId "admin" userId users newRole
              = (c, users) ∧ c ≠ 200) := by
  constructor
  · intro callerId callerRole userId users newRole h
    rw [update_user_role, if_pos h]
  · intro callerId userId users newRole hself hrole
    cases hu : strLookup users userId with
    | none =>
        refine ⟨404, ?_, by decide⟩
        rw [update_user_role, if_neg (fun h => h rfl), hu]
    | some target =>
        cases newRole with
        | none =>
            refine ⟨400, ?_, by decide⟩
            rw [update_user_role, if_neg (fun h => h rfl), hu]
        | some r =>
            refine ⟨400, ?_, by decide⟩
            rw [update_user_role, if_neg (fun h => h rfl), hu]
            show (if ¬(r = "guest" ∨ r = "member" ∨ r = "admin") then
                    ((400 : Nat), users)
                  else if userId = callerId ∧ r ≠ "admin" then
                    ((400 : Nat), users)
                  else ((200 : Nat), strSet users userId
                    { target with role := r })) = (400, users)
            by_cases hv : r = "guest" ∨ r = "member" ∨ r = "admin"
            · rw [if_neg (not_not_intro hv),
                if_pos ⟨hself, fun h => hrole (by rw [h])⟩]
            · rw [if_pos hv]

/-- The user table of the C7 witness: one admin. -/
def c7Users : List (String × UserRec) :=
  [("u1", { username := "alice", role := "admin" })]

/-- C7 witness: a member calling the role endpoint gets 403, and an admin
demoting themselves to member leaves the table unchanged. -/
theorem C7_witness_concrete :
    update_user_role "u2" "member" "u1" c7Users (some "admin")
      = (403, c7Users) ∧
    ∃ c, update_user_role "u1" "admin" "u1" c7Users (some "member")
          = (c, c7Users) ∧ c ≠ 200 :=
  ⟨C7_role_update_access_control.1 "u2" "member" "u1" c7Users (some "admin")
      (by decide),
   C7_role_update_access_control.2 "u1" "u1" c7Users (some "member") rfl
      (by decide)⟩

/-- C8: the duplicate-vote check (`app.py` line 826) runs before the
Firestore transaction opens (line 853) and the transactional function never
re-checks, so in the interleaving where both concurrent requests by the
same user run their checks before either transaction commits, both return
200 and the `votes_for` counter is incremented twice. -/
theorem C8_check_then_act_race :
    runSched [true, false, true, false] initConc
      = { shared := { votes_for := 2, voteDocExists := true },
          reqA := { pc := 2, res := some 200 },
          reqB := { pc := 2, res := some 200 } } := rfl

/-- The presentation stored by a successful `add_presentation` at time 0:
the deadline sits under the key `voting_ends_at`, and the key
`votingEndsAt` that `get_presentations` consults is absent. -/
def c9Pres : PresDoc :=
  { title := "Pitch", url := "u", ticker := "ABC", action := "buy",
    created_at := 0, voting_ends_at := some 172800, votingEndsAt := none,
    votes_for := 0, votes_against := 0, votes := [] }

/-- C9: `get_presentations` computes `isVotingOpen` from the key
`votingEndsAt` while `add_presentation` stores the deadline under
`voting_ends_at`.  For a presentation this application created, at time
3600 the voting window is still open (`vote_on_presentation` accepts a
member's vote with 200), yet the listing processed for a non-admin caller
has `isVotingOpen = false` and still carries both running tallies: the
fields are not removed. -/
theorem C9_open_tallies_visible_to_nonadmin :
    add_presentation "member" (some ("Pitch", "u", "ABC", "buy")) 0
      = (201, some c9Pres) ∧
    (vote_on_presentation "member" "u1" "for" (some c9Pres) 3600).1
      = 200 ∧
    (processPresentation "member" (some "u2") c9Pres 3600).isVotingOpen
      = false ∧
    (processPresentation "member" (some "u2") c9Pres 3600).votes_for
      = some 0 ∧
    (processPresentation "member" (some "u2") c9Pres 3600).votes_against
      = some 0 :=
  ⟨rfl, rfl, rfl, rfl, rfl⟩

/-- C10: during aggregation a real sell with no entry in the position map
leaves the map unchanged, and a real sell against an entry whose running
quantity is not positive changes neither the running quantity nor the
running total cost (only the `customSection` label is refreshed), so the
average-cost division only ever runs with a positive running quantity. -/
theorem C10_sell_without_position_skipped :
    (∀ (m : List (String × Position)) (tx : Tx),
        tx.isReal = true → tx.transactionType = "sell" →
        strLookup m tx.symbol = none →
        aggregateStep m tx = m) ∧
    (∀ (m : List (String × Position)) (tx : Tx) (pos : Position),
        tx.isReal = true → tx.transactionType = "sell" →
        strLookup m tx.symbol = some pos → pos.quantity ≤ 0 →
        strLookup (aggregateStep m tx) tx.symbol
          = some { pos with customSection := tx.customSection }) := by
  constructor
  · intro m tx h1 h2 h3
    simp [aggregateStep, h1, h2, h3]
  · intro m tx pos h1 h2 h3 hq
    simp only [aggregateStep, h1, h3]
    rw [if_neg (by simp), strLookup_strSet_self]
    congr 1
    rw [applyTx, if_neg (by rw [h2]; decide), if_neg (not_lt.mpr hq)]

/-- The position map of the C10 witness: one `ABC` entry with zero
quantity. -/
def c10Map : List (String × Position) :=
  [("ABC", { symbol := "ABC", longName := none, sector := none,
             customSection := none, quantity := 0, totalCost := 0 })]

/-- C10 witness: a sell of 5 `ABC` with no entry leaves the empty map
unchanged, and a sell against a zero-quantity entry keeps quantity and
total cost at 0. -/
theorem C10_witness_concrete :
    aggregateStep [] (exSell "2024-01-01" 5) = [] ∧
    strLookup (aggregateStep c10Map (exSell "2024-01-02" 5)) "ABC"
      = some { symbol := "ABC", longName := none, sector := none,
               customSection := none, quantity := 0, totalCost := 0 } :=
  ⟨C10_sell_without_position_skipped.1 [] (exSell "2024-01-01" 5) rfl rfl
      rfl,
   C10_sell_without_position_skipped.2 c10Map (exSell "2024-01-02" 5) _ rfl
      rfl rfl (by norm_num)⟩

end InvestClub
